import Mathlib

/-!
Shallow embedding of the avrlib rotary-encoder driver
(src/unnamed/part_000: RotaryEncoder and RotaryEncoderTracker, namespace
avrlib).  Machine integers are modelled as Nat (uint8_t histories, the
uint32_t millisecond clock, with explicit reduction modulo 2^32 where the
code overflows) and Int (the int8_t increment).  The stateful reads become
explicit state passing: each operation takes the current state and the raw
pin samples of the tick and returns its result together with the new state.
-/

namespace Avrlib

/-- Modelled from the spec: DebouncedSwitch (avrlib/devices/debounce.h is
not under src).  A debounced digital input owns an 8-bit shift history of
the last raw samples, bit 7 the most recent and bit 0 the oldest retained
sample, plus a one-shot full-transition flag. -/
structure SwitchState where
  hist : Nat
  raisedFlag : Bool
  deriving DecidableEq, Repr

/-- Modelled from the spec: DebouncedSwitch::Read samples the raw pin once,
advancing the shift history (the new sample enters bit 7, the oldest bit is
discarded) and raising the one-shot transition flag when a clean full
transition (history exactly 0x80) is observed; it returns the advanced
history. -/
def DebouncedSwitch.Read (s : SwitchState) (sample : Bool) : Nat × SwitchState :=
  let h := s.hist / 2 + (if sample then 128 else 0)
  (h, { hist := h, raisedFlag := s.raisedFlag || (h == 128) })

/-- Modelled from the spec: DebouncedSwitch::raised, the one-shot
full-transition flag, cleared on read. -/
def DebouncedSwitch.raised (s : SwitchState) : Bool × SwitchState :=
  (s.raisedFlag, { s with raisedFlag := false })

/-- State of RotaryEncoder (part_000 lines 29-77): the three debounced
switches of channel A, channel B and the click button, plus the rate-limit
deadline next_readout_ (a uint32_t). -/
structure EncoderState where
  switchA : SwitchState
  switchB : SwitchState
  switchClick : SwitchState
  nextReadout : Nat
  deriving DecidableEq, Repr

/-- The raw pin samples presented to one read of the three channels. -/
structure Inputs where
  pinA : Bool
  pinB : Bool
  pinClick : Bool
  deriving DecidableEq, Repr

/-- The pure decode rule of RotaryEncoder::Read (part_000 lines 56-65) as a
function of the two freshly read histories a and b. -/
def decodeIncrement (a b : Nat) : Int :=
  if a = 0x80 ∧ b &&& 0xf0 = 0 then 1
  else if b = 0x80 ∧ a &&& 0xf0 = 0 then -1
  else 0

/-- RotaryEncoder::Read (part_000 lines 55-68): reads (samples) switches A
and B, computes the increment from the two returned histories, reads the
click switch as a side effect, and returns the increment. -/
def RotaryEncoder.Read (s : EncoderState) (i : Inputs) : Int × EncoderState :=
  (decodeIncrement (DebouncedSwitch.Read s.switchA i.pinA).1
      (DebouncedSwitch.Read s.switchB i.pinB).1,
   { s with
      switchA := (DebouncedSwitch.Read s.switchA i.pinA).2,
      switchB := (DebouncedSwitch.Read s.switchB i.pinB).2,
      switchClick := (DebouncedSwitch.Read s.switchClick i.pinClick).2 })

/-- RotaryEncoder::TimedRead (part_000 lines 45-53): the rate limiter over
the wrapping uint32_t millisecond clock.  The code accepts a readout when
t >= next_readout_ under plain unsigned comparison, then stores
next_readout_ = t + debounce_time (uint32_t addition, so modulo 2^32) and
delegates to Read; otherwise it returns 0 untouched. -/
def RotaryEncoder.TimedRead (debounceTime : Nat) (s : EncoderState) (t : Nat)
    (i : Inputs) : Int × EncoderState :=
  if s.nextReadout ≤ t then
    RotaryEncoder.Read { s with nextReadout := (t + debounceTime) % 4294967296 } i
  else
    (0, s)

/-- RotaryEncoder::clicked (part_000 line 70): reads the click switch
one-shot transition flag. -/
def RotaryEncoder.clicked (s : EncoderState) : Bool × EncoderState :=
  ((DebouncedSwitch.raised s.switchClick).1,
   { s with switchClick := (DebouncedSwitch.raised s.switchClick).2 })

/-- State of RotaryEncoderTracker (part_000 lines 79-110): the wrapped
encoder plus the two latch fields, increment_ (an int8_t) and clicked_
(a uint8_t holding a boolean). -/
structure TrackerState where
  enc : EncoderState
  increment_ : Int
  clicked_ : Bool
  deriving DecidableEq, Repr

/-- First statement of RotaryEncoderTracker::Read (part_000 lines 89-91):
if (!increment_) increment_ = Encoder::Read(). -/
def RotaryEncoderTracker.latchStep (s : TrackerState) (i : Inputs) : TrackerState :=
  if s.increment_ = 0 then
    { enc := (RotaryEncoder.Read s.enc i).2,
      increment_ := (RotaryEncoder.Read s.enc i).1,
      clicked_ := s.clicked_ }
  else s

/-- Second statement of RotaryEncoderTracker::Read (part_000 lines 92-94):
if (!clicked_) clicked_ = Encoder::clicked(). -/
def RotaryEncoderTracker.latchClick (s : TrackerState) : TrackerState :=
  if s.clicked_ = false then
    { s with
        enc := (RotaryEncoder.clicked s.enc).2,
        clicked_ := (RotaryEncoder.clicked s.enc).1 }
  else s

/-- RotaryEncoderTracker::Read (part_000 lines 88-95): the two latch
statements in order. -/
def RotaryEncoderTracker.Read (s : TrackerState) (i : Inputs) : TrackerState :=
  RotaryEncoderTracker.latchClick (RotaryEncoderTracker.latchStep s i)

/-- RotaryEncoderTracker::increment (part_000 line 98): the accessor
returns the stored int8_t increment_ through a uint8_t return type, i.e.
the value reduced modulo 256 into 0..255. -/
def RotaryEncoderTracker.increment (s : TrackerState) : Nat :=
  (s.increment_ % 256).toNat

/-- RotaryEncoderTracker::clicked (part_000 line 97). -/
def RotaryEncoderTracker.clicked (s : TrackerState) : Bool :=
  s.clicked_

/-- RotaryEncoderTracker::Flush (part_000 lines 100-103). -/
def RotaryEncoderTracker.Flush (s : TrackerState) : TrackerState :=
  { s with increment_ := 0, clicked_ := false }

/-- Iterated polling: RotaryEncoderTracker::Read over a list of raw sample
triples, one triple per poll. -/
def pollMany (s : TrackerState) : List Inputs → TrackerState
  | [] => s
  | i :: rest => pollMany (RotaryEncoderTracker.Read s i) rest

/-- An encoder state with cleared histories, cleared flags and deadline 0
(as after Init, which resets next_readout_ to 0). -/
def encZero : EncoderState :=
  { switchA := { hist := 0, raisedFlag := false },
    switchB := { hist := 0, raisedFlag := false },
    switchClick := { hist := 0, raisedFlag := false },
    nextReadout := 0 }

/-- An encoder state whose deadline sits just below the uint32_t wraparound
point, as left behind by a readout accepted shortly before the millisecond
clock wraps. -/
def encWrapPending : EncoderState :=
  { switchA := { hist := 0, raisedFlag := false },
    switchB := { hist := 0, raisedFlag := false },
    switchClick := { hist := 0, raisedFlag := false },
    nextReadout := 4294967295 }

/-- A tracker state with nothing latched. -/
def trackerZero : TrackerState :=
  { enc := encZero, increment_ := 0, clicked_ := false }

/-- A tracker state with a +1 step and a click already latched. -/
def trackerLatched : TrackerState :=
  { enc := encZero, increment_ := 1, clicked_ := true }

/-- No edge on any channel. -/
def quietInputs : Inputs := { pinA := false, pinB := false, pinClick := false }

/-- A raw high sample on channel A only. -/
def edgeAInputs : Inputs := { pinA := true, pinB := false, pinClick := false }

/-- A raw high sample on channel B only. -/
def edgeBInputs : Inputs := { pinA := false, pinB := true, pinClick := false }

/-- Raw high samples on all three channels at once. -/
def allEdgeInputs : Inputs := { pinA := true, pinB := true, pinClick := true }

/-- A tracker state with a +1 step latched, no click latched yet, and the
button's one-shot transition flag raised. -/
def trackerFlagged : TrackerState :=
  { enc :=
      { switchA := { hist := 3, raisedFlag := false },
        switchB := { hist := 5, raisedFlag := false },
        switchClick := { hist := 64, raisedFlag := true },
        nextReadout := 0 },
    increment_ := 1,
    clicked_ := false }

/-! ## Helper lemmas on the tracker's two latch statements -/

lemma latchStep_skip (s : TrackerState) (i : Inputs) (h : s.increment_ ≠ 0) :
    RotaryEncoderTracker.latchStep s i = s := by
  unfold RotaryEncoderTracker.latchStep
  exact if_neg h

lemma latchStep_clicked (s : TrackerState) (i : Inputs) :
    (RotaryEncoderTracker.latchStep s i).clicked_ = s.clicked_ := by
  unfold RotaryEncoderTracker.latchStep
  split <;> rfl

lemma latchClick_increment (s : TrackerState) :
    (RotaryEncoderTracker.latchClick s).increment_ = s.increment_ := by
  unfold RotaryEncoderTracker.latchClick
  split <;> rfl

lemma latchClick_skip (s : TrackerState) (h : s.clicked_ = true) :
    RotaryEncoderTracker.latchClick s = s := by
  unfold RotaryEncoderTracker.latchClick
  exact if_neg (by simp [h])

lemma read_increment_of_latched (s : TrackerState) (i : Inputs)
    (h : s.increment_ ≠ 0) :
    (RotaryEncoderTracker.Read s i).increment_ = s.increment_ := by
  unfold RotaryEncoderTracker.Read
  rw [latchClick_increment, latchStep_skip s i h]

lemma read_clicked_of_latched (s : TrackerState) (i : Inputs)
    (h : s.clicked_ = true) :
    (RotaryEncoderTracker.Read s i).clicked_ = true := by
  unfold RotaryEncoderTracker.Read
  rw [latchClick_skip _ (by rw [latchStep_clicked]; exact h), latchStep_clicked]
  exact h

/-! ## The claims -/

/-- Claim C1, counterexample: on the degenerate simultaneous-edge input
where both histories are exactly 0x80, decode does NOT return +1 — the +1
branch requires the upper nibble of b to be clear, which 0x80 is not. -/
theorem decode_simultaneous_not_plus_one :
    ¬ decodeIncrement 0x80 0x80 = 1 := by decide

/-- Claim C1, amended: for the degenerate simultaneous-edge input where
both channel histories are exactly 0x80, neither branch condition holds
(each requires the other channel's upper nibble to be clear), so decode
returns 0; moreover the +1 and -1 conditions are mutually exclusive for
every pair of histories, so the +1-branch-first evaluation order never
decides a tie. -/
theorem decode_simultaneous_is_zero :
    decodeIncrement 0x80 0x80 = 0
      ∧ ∀ a b : Nat, ¬ ((a = 0x80 ∧ b &&& 0xf0 = 0) ∧ (b = 0x80 ∧ a &&& 0xf0 = 0)) := by
  refine ⟨by decide, ?_⟩
  rintro a b ⟨⟨ha, hb⟩, hb2, ha2⟩
  subst ha
  subst hb2
  exact absurd hb (by decide)

/-- Claim C2 (the code at the failing input): with next_readout_ stored as
4294967295 by a readout accepted just before the uint32_t clock wraps, and
the clock now reading 0 (so 1 millisecond has elapsed modulo 2^32, at least
the debounce interval of 1), TimedRead still returns 0 and leaves the
whole state untouched — no channel is sampled — because the code compares
with plain unsigned t >= next_readout_ instead of a wrap-safe modular
comparison. -/
theorem timedRead_rejects_after_wraparound :
    1 ≤ (0 + 4294967296 - 4294967295) % 4294967296
      ∧ RotaryEncoder.TimedRead 1 encWrapPending 0 edgeAInputs = (0, encWrapPending) := by
  decide

/-- Claim C3 (the code at the failing input): starting from a fresh
tracker, one poll with a raw high sample on channel B latches a -1 step
(the stored int8_t increment_ is -1), but the accessor increment() returns
it through a uint8_t return type, so the caller reads 255, not -1. -/
theorem increment_accessor_loses_sign :
    (RotaryEncoderTracker.Read trackerZero edgeBInputs).increment_ = -1
      ∧ RotaryEncoderTracker.increment (RotaryEncoderTracker.Read trackerZero edgeBInputs) = 255 := by
  decide

/-- Claim C4: for all 8-bit histories a and b, decode(a, b) == +1 exactly
when a == 0x80 and the upper nibble of b is clear. -/
theorem decode_plus_one_iff (a b : Nat) (ha : a < 256) (hb : b < 256) :
    decodeIncrement a b = 1 ↔ (a = 0x80 ∧ b &&& 0xf0 = 0) := by
  unfold decodeIncrement
  split_ifs with h1 h2
  · exact iff_of_true rfl h1
  · exact iff_of_false (by decide) h1
  · exact iff_of_false (by decide) h1

/-- Claim C4, witness: decode(0x80, 0x00) == +1. -/
theorem decode_plus_one_iff_witness : decodeIncrement 0x80 0x00 = 1 :=
  (decode_plus_one_iff 0x80 0x00 (by decide) (by decide)).mpr ⟨rfl, by decide⟩

/-- Claim C5: for all 8-bit histories a and b, decode(a, b) == -1 exactly
when b == 0x80, the upper nibble of a is clear, and the +1 condition does
not also hold; and for every pair satisfying neither branch condition,
decode(a, b) == 0. -/
theorem decode_minus_one_iff (a b : Nat) (ha : a < 256) (hb : b < 256) :
    (decodeIncrement a b = -1
        ↔ ((b = 0x80 ∧ a &&& 0xf0 = 0) ∧ ¬ (a = 0x80 ∧ b &&& 0xf0 = 0)))
      ∧ (¬ (a = 0x80 ∧ b &&& 0xf0 = 0) → ¬ (b = 0x80 ∧ a &&& 0xf0 = 0) →
          decodeIncrement a b = 0) := by
  unfold decodeIncrement
  split_ifs with h1 h2
  · exact ⟨iff_of_false (by decide) (fun hm => hm.2 h1), fun hn _ => absurd h1 hn⟩
  · exact ⟨iff_of_true rfl ⟨h2, h1⟩, fun _ hn => absurd h2 hn⟩
  · exact ⟨iff_of_false (by decide) (fun hm => h2 hm.1), fun _ _ => rfl⟩

/-- Claim C5, witness: decode(0x00, 0x80) == -1. -/
theorem decode_minus_one_iff_witness : decodeIncrement 0x00 0x80 = -1 :=
  ((decode_minus_one_iff 0x00 0x80 (by decide) (by decide)).1).mpr
    ⟨⟨rfl, by decide⟩, by decide⟩

/-- Claim C6, counterexample: after an accepted call at now1 = 4294967293
with debounce interval 5, the stored deadline wraps to 2, so a second call
at now2 = 4294967295 — only 2 milliseconds later, inside the debounce
interval — is accepted anyway: it samples the channels (channel A's
history changes from 0x00 to 0x80) and returns 1, not 0. -/
theorem timedRead_second_call_within_interval_accepted :
    (4294967295 + 4294967296 - 4294967293) % 4294967296 < 5
      ∧ (RotaryEncoder.TimedRead 5 encZero 4294967293 quietInputs).2.nextReadout = 2
      ∧ (RotaryEncoder.TimedRead 5
          (RotaryEncoder.TimedRead 5 encZero 4294967293 quietInputs).2
          4294967295 edgeAInputs).1 = 1
      ∧ (RotaryEncoder.TimedRead 5 encZero 4294967293 quietInputs).2.switchA.hist = 0
      ∧ (RotaryEncoder.TimedRead 5
          (RotaryEncoder.TimedRead 5 encZero 4294967293 quietInputs).2
          4294967295 edgeAInputs).2.switchA.hist = 128 := by
  decide

/-- Claim C6, amended: when now is before next_deadline under the code's
plain unsigned comparison, TimedRead returns 0 and performs no side
effects at all; when it is not, TimedRead stores next_deadline =
(now + debounce_interval) mod 2^32 and returns decode() on the advanced
histories.  Consequently, provided the new deadline does not wrap around
the 32-bit counter, a second call less than debounce_interval after an
accepted call finds now2 before the deadline, returns 0 and samples no
channel. -/
theorem timedRead_contract_no_deadline_wrap
    (d : Nat) (s s0 : EncoderState) (t1 t2 t0 : Nat) (i1 i2 i0 : Inputs)
    (hacc : s.nextReadout ≤ t1) (hrej : t0 < s0.nextReadout)
    (hnowrap : t1 + d < 4294967296) (ht2 : t2 < 4294967296)
    (helapsed : (t2 + 4294967296 - t1) % 4294967296 < d) :
    RotaryEncoder.TimedRead d s0 t0 i0 = (0, s0)
      ∧ RotaryEncoder.TimedRead d s t1 i1
          = RotaryEncoder.Read { s with nextReadout := (t1 + d) % 4294967296 } i1
      ∧ t2 < (RotaryEncoder.TimedRead d s t1 i1).2.nextReadout
      ∧ RotaryEncoder.TimedRead d (RotaryEncoder.TimedRead d s t1 i1).2 t2 i2
          = (0, (RotaryEncoder.TimedRead d s t1 i1).2) := by
  have h1 : RotaryEncoder.TimedRead d s t1 i1
      = RotaryEncoder.Read { s with nextReadout := (t1 + d) % 4294967296 } i1 := by
    unfold RotaryEncoder.TimedRead
    exact if_pos hacc
  have hnr : (RotaryEncoder.Read { s with nextReadout := (t1 + d) % 4294967296 } i1).2.nextReadout
      = (t1 + d) % 4294967296 := rfl
  have hmod : (t1 + d) % 4294967296 = t1 + d := Nat.mod_eq_of_lt hnowrap
  have ht2lt : t2 < t1 + d := by omega
  refine ⟨?_, h1, ?_, ?_⟩
  · unfold RotaryEncoder.TimedRead
    exact if_neg (by omega)
  · rw [h1, hnr, hmod]
    exact ht2lt
  · rw [h1]
    unfold RotaryEncoder.TimedRead
    exact if_neg (by rw [hnr, hmod]; omega)

/-- Claim C6, witness: after an accepted call at time 10 with debounce
interval 5 (deadline 15, no wraparound), a call at time 12 returns 0 and
leaves the state — and in particular every debounce history — unchanged. -/
theorem timedRead_contract_no_deadline_wrap_witness :
    RotaryEncoder.TimedRead 5 (RotaryEncoder.TimedRead 5 encZero 10 quietInputs).2 12 quietInputs
      = (0, (RotaryEncoder.TimedRead 5 encZero 10 quietInputs).2) :=
  (timedRead_contract_no_deadline_wrap 5 encZero encWrapPending 10 12 0
    quietInputs quietInputs quietInputs
    (by decide) (by decide) (by decide) (by decide) (by decide)).2.2.2

/-- Claim C7: the latch coalesces instead of accumulating — for each field
independently, once increment_ is non-zero (resp. clicked_ is true), any
number of further polls, whatever steps or clicks the decoder would report
during them, leave that field unchanged until Flush. -/
theorem tracker_latch_coalesces (s : TrackerState) (l : List Inputs) :
    (s.increment_ ≠ 0 → (pollMany s l).increment_ = s.increment_)
      ∧ (s.clicked_ = true → (pollMany s l).clicked_ = true) := by
  induction l generalizing s with
  | nil => exact ⟨fun _ => rfl, fun h => h⟩
  | cons i rest ih =>
    refine ⟨fun h => ?_, fun h => ?_⟩
    · have h1 : (RotaryEncoderTracker.Read s i).increment_ = s.increment_ :=
        read_increment_of_latched s i h
      have h2 := (ih (RotaryEncoderTracker.Read s i)).1 (by rw [h1]; exact h)
      calc (pollMany (RotaryEncoderTracker.Read s i) rest).increment_
          = (RotaryEncoderTracker.Read s i).increment_ := h2
        _ = s.increment_ := h1
    · exact (ih (RotaryEncoderTracker.Read s i)).2 (read_clicked_of_latched s i h)

/-- Claim C7, witness: with a +1 step and a click latched, two further
polls carrying a fresh channel-A edge and then a fresh channel-B edge
change neither latched field. -/
theorem tracker_latch_coalesces_witness :
    (pollMany trackerLatched [edgeAInputs, edgeBInputs]).increment_ = trackerLatched.increment_
      ∧ (pollMany trackerLatched [edgeAInputs, edgeBInputs]).clicked_ = true :=
  ⟨(tracker_latch_coalesces trackerLatched [edgeAInputs, edgeBInputs]).1 (by decide),
   (tracker_latch_coalesces trackerLatched [edgeAInputs, edgeBInputs]).2 (by decide)⟩

/-- Claim C8: every call of RotaryEncoder::Read samples the button
channel's debounced input, advancing its shift history by exactly one
sample (this holds whatever step is returned, the result being a pure
function of the same states); and the button's one-shot transition flag is
not part of the returned step — it is read separately via clicked() from
the post-read state. -/
theorem read_always_samples_click (s : EncoderState) (i : Inputs) :
    (RotaryEncoder.Read s i).2.switchClick.hist
        = s.switchClick.hist / 2 + (if i.pinClick then 128 else 0)
      ∧ (RotaryEncoder.clicked (RotaryEncoder.Read s i).2).1
        = (RotaryEncoder.Read s i).2.switchClick.raisedFlag :=
  ⟨rfl, rfl⟩

/-- Claim C9: Flush resets both latch fields — afterwards the increment
accessor returns 0 and the clicked accessor returns false, whatever the
previous latch state. -/
theorem flush_resets_latch (s : TrackerState) :
    RotaryEncoderTracker.increment (RotaryEncoderTracker.Flush s) = 0
      ∧ RotaryEncoderTracker.clicked (RotaryEncoderTracker.Flush s) = false :=
  ⟨rfl, rfl⟩

/-- Claim C10: when a step is already latched (increment_ non-zero), a
poll skips Encoder::Read entirely: no debounce history of channel A,
channel B or the button advances, the latched step is untouched, and
clicked_ can only become true from the button's already-raised one-shot
transition flag. -/
theorem latched_step_suppresses_sampling (s : TrackerState) (i : Inputs)
    (h : s.increment_ ≠ 0) :
    (RotaryEncoderTracker.Read s i).enc.switchA.hist = s.enc.switchA.hist
      ∧ (RotaryEncoderTracker.Read s i).enc.switchB.hist = s.enc.switchB.hist
      ∧ (RotaryEncoderTracker.Read s i).enc.switchClick.hist = s.enc.switchClick.hist
      ∧ (RotaryEncoderTracker.Read s i).increment_ = s.increment_
      ∧ (RotaryEncoderTracker.Read s i).clicked_
        = (s.clicked_ || s.enc.switchClick.raisedFlag) := by
  have hread : RotaryEncoderTracker.Read s i = RotaryEncoderTracker.latchClick s := by
    unfold RotaryEncoderTracker.Read
    rw [latchStep_skip s i h]
  rw [hread]
  unfold RotaryEncoderTracker.latchClick
  by_cases hc : s.clicked_ = false
  · rw [if_pos hc, hc]
    exact ⟨rfl, rfl, rfl, rfl, rfl⟩
  · have hct : s.clicked_ = true := by
      revert hc
      cases s.clicked_ <;> simp
    rw [if_neg hc, hct]
    exact ⟨rfl, rfl, rfl, rfl, rfl⟩

/-- Claim C10, witness: with a +1 step latched and the button flag already
raised, a poll carrying fresh edges on every channel advances no history
and sets clicked_ from the raised flag. -/
theorem latched_step_suppresses_sampling_witness :
    (RotaryEncoderTracker.Read trackerFlagged allEdgeInputs).enc.switchA.hist
        = trackerFlagged.enc.switchA.hist
      ∧ (RotaryEncoderTracker.Read trackerFlagged allEdgeInputs).enc.switchB.hist
        = trackerFlagged.enc.switchB.hist
      ∧ (RotaryEncoderTracker.Read trackerFlagged allEdgeInputs).enc.switchClick.hist
        = trackerFlagged.enc.switchClick.hist
      ∧ (RotaryEncoderTracker.Read trackerFlagged allEdgeInputs).increment_
        = trackerFlagged.increment_
      ∧ (RotaryEncoderTracker.Read trackerFlagged allEdgeInputs).clicked_
        = (trackerFlagged.clicked_ || trackerFlagged.enc.switchClick.raisedFlag) :=
  latched_step_suppresses_sampling trackerFlagged allEdgeInputs (by decide)

end Avrlib
